import Mathlib

/-!
Verification of the transactional execution context engine demonstrated by
the `fastapi-sqla-fancy-core-example-app` repository.

The repository's business code (`create_book`, `get_stats`, …) lives in
`src/`; the scoping/execution engine it exercises (`fancy(engine)` with its
`atomic`, `ax`, `atx`, `nax`, `x`, `tx` entry points and the `@transact`
and `@connect` decorators of `sqla_fancy_core`) is an external library
whose source is not part of this repository.  Business functions below are
translated from the repository's Python source; engine definitions marked
`Modelled from the spec:` are modelled from the specification's contract
(sections 4.2, 4.3 and 7), which is the only description of the engine the
repository carries.
-/

namespace FancyCore

/-- One committed or pending row of the `author` table (ids are generated
by the auto-increment column, names by callers). -/
structure AuthorRow where
  id : Nat
  name : String
deriving Repr, DecidableEq

/-- One committed or pending row of the `book` table; `author_id` is a
nullable integer column (a plain value, not validated against `author`,
since SQLite foreign keys are not enforced here). -/
structure BookRow where
  id : Nat
  title : String
  author_id : Option Int
deriving Repr, DecidableEq

/-- A database state: the rows of the two tables plus the auto-increment
counters that produce fresh primary keys. -/
structure DB where
  authors : List AuthorRow
  books : List BookRow
  nextAuthorId : Nat
  nextBookId : Nat
deriving Repr, DecidableEq

def DB.empty : DB := ⟨[], [], 1, 1⟩

/-- `INSERT INTO author ... RETURNING author.id`. -/
def DB.insertAuthor (db : DB) (name : String) : Nat × DB :=
  (db.nextAuthorId,
    { db with
        authors := db.authors ++ [⟨db.nextAuthorId, name⟩]
        nextAuthorId := db.nextAuthorId + 1 })

/-- `INSERT INTO book ... RETURNING book.id`. -/
def DB.insertBook (db : DB) (title : String) (authorId : Option Int) : Nat × DB :=
  (db.nextBookId,
    { db with
        books := db.books ++ [⟨db.nextBookId, title, authorId⟩]
        nextBookId := db.nextBookId + 1 })

def DB.authorCount (db : DB) : Nat := db.authors.length

def DB.bookCount (db : DB) : Nat := db.books.length

/-- SQL `max` aggregate over a list of ids: `NULL` on an empty table. -/
def listMax : List Nat → Option Nat
  | [] => none
  | n :: ns =>
    match listMax ns with
    | none => some n
    | some m => some (max n m)

def DB.maxAuthorId (db : DB) : Option Nat := listMax (db.authors.map (·.id))

def DB.maxBookId (db : DB) : Option Nat := listMax (db.books.map (·.id))

/-- The error kinds of the specification's section 7: `scopeError` when a
required transactional handle is unavailable, `engineError` for an
underlying execute/commit failure, and `valueError` for the business-level
`ValueError` the example handlers raise. -/
inductive Err
  | scopeError
  | engineError
  | valueError
deriving Repr, DecidableEq

/-- A scalar query result, as consumed by the handlers' `.scalar_one()`:
counts and returned ids are integers, `max` aggregates are nullable. -/
inductive QResult
  | scalarNat (n : Nat)
  | scalarOpt (o : Option Nat)
deriving Repr, DecidableEq

/-- The queries the example application issues, plus `failing`, a query
whose execution raises an engine error (used to exercise rollback). -/
inductive Query
  | insertAuthor (name : String)
  | insertBook (title : String) (authorId : Option Int)
  | countAuthors
  | countBooks
  | maxAuthorId
  | maxBookId
  | failing
deriving Repr, DecidableEq

/-- Execute one query against one database view. -/
def execQuery : Query → DB → Except Err (QResult × DB)
  | .insertAuthor name, db =>
    let (aid, db1) := db.insertAuthor name
    .ok (.scalarNat aid, db1)
  | .insertBook title authorId, db =>
    let (bid, db1) := db.insertBook title authorId
    .ok (.scalarNat bid, db1)
  | .countAuthors, db => .ok (.scalarNat db.authorCount, db)
  | .countBooks, db => .ok (.scalarNat db.bookCount, db)
  | .maxAuthorId, db => .ok (.scalarOpt db.maxAuthorId, db)
  | .maxBookId, db => .ok (.scalarOpt db.maxBookId, db)
  | .failing, _ => .error .engineError

/-- A handle is either a plain connection or a transaction-bound
connection (spec section 3: only the latter carries commit/rollback
authority). -/
inductive HKind
  | plain
  | txn
deriving Repr, DecidableEq

/-- Opaque reference to an open connection or transaction. -/
structure Handle where
  id : Nat
  kind : HKind
deriving Repr, DecidableEq

/-- The ambient scope kind of a `ScopeContext` (spec section 3). -/
inductive SKind
  | noScope
  | nonAtomic
  | atomic
deriving Repr, DecidableEq

/-- Modelled from the spec: the per-logical-operation `ScopeContext`
(section 4.1) — at most one active ambient handle plus its kind; queried
before any scope exists it reads `(none, noScope)`. -/
structure ScopeCtx where
  current : Option Handle
  kind : SKind
deriving Repr, DecidableEq

/-- Modelled from the spec: the observable state of the external `Engine`
collaborator (section 6) for one logical operation — the committed
database, the pending view of each open transaction (keyed by handle id),
the open plain connections, and a fresh-handle counter. -/
structure EngSt where
  committed : DB
  openTx : List (Nat × DB)
  conns : List Nat
  nextHandle : Nat
deriving Repr, DecidableEq

def EngSt.init (db : DB) : EngSt := ⟨db, [], [], 1⟩

def lookupTx (st : EngSt) (hid : Nat) : Option DB := st.openTx.lookup hid

def setTx (st : EngSt) (hid : Nat) (db : DB) : EngSt :=
  { st with openTx := st.openTx.map (fun p => if p.1 = hid then (hid, db) else p) }

/-- Modelled from the spec: `Engine.beginTransaction()` — a new
transaction whose pending view starts from the committed state. -/
def beginTx (st : EngSt) : Handle × EngSt :=
  (⟨st.nextHandle, .txn⟩,
    { st with
        openTx := (st.nextHandle, st.committed) :: st.openTx
        nextHandle := st.nextHandle + 1 })

/-- Modelled from the spec: `Engine.commit(handle)` — the pending view
becomes the committed state and the transaction is closed. -/
def commitTx (st : EngSt) (hid : Nat) : EngSt :=
  match lookupTx st hid with
  | some v => { st with committed := v, openTx := st.openTx.filter (fun p => p.1 ≠ hid) }
  | none => st

/-- Modelled from the spec: `Engine.rollback(handle)` — the pending view
is discarded; the committed state is untouched. -/
def rollbackTx (st : EngSt) (hid : Nat) : EngSt :=
  { st with openTx := st.openTx.filter (fun p => p.1 ≠ hid) }

/-- Modelled from the spec: `Engine.openConnection()` — a plain
connection with no transactional semantics. -/
def openConn (st : EngSt) : Handle × EngSt :=
  (⟨st.nextHandle, .plain⟩,
    { st with
        conns := st.nextHandle :: st.conns
        nextHandle := st.nextHandle + 1 })

/-- Modelled from the spec: `Engine.close(handle)` for plain
connections. -/
def closeConn (st : EngSt) (hid : Nat) : EngSt :=
  { st with conns := st.conns.filter (fun n => n ≠ hid) }

/-- Modelled from the spec: `Engine.execute(handle, query)` — on a
transaction-bound handle the query reads and writes that transaction's
pending view; on a plain connection it reads and (autocommit) writes the
committed state.  On failure the observable engine state is returned
unchanged. -/
def execOnS (h : Handle) (q : Query) (st : EngSt) : Except Err QResult × EngSt :=
  match h.kind with
  | .txn =>
    match lookupTx st h.id with
    | none => (.error .engineError, st)
    | some v =>
      match execQuery q v with
      | .error e => (.error e, st)
      | .ok (r, v1) => (.ok r, setTx st h.id v1)
  | .plain =>
    match execQuery q st.committed with
    | .error e => (.error e, st)
    | .ok (r, db1) => (.ok r, { st with committed := db1 })

/-- Modelled from the spec: executor entry point `ax` (`requireAtomic`,
section 4.3) — accepts no explicit handle, requires an active ambient
atomic scope, and fails with `scopeError` otherwise, touching nothing. -/
def ax (ctx : ScopeCtx) (q : Query) (st : EngSt) : Except Err QResult × EngSt :=
  match ctx.current, ctx.kind with
  | some h, .atomic => execOnS h q st
  | _, _ => (.error .scopeError, st)

/-- Modelled from the spec: executor entry point `nax`
(`requireNonAtomic`, section 4.3) — reuses the ambient handle when any
scope is active (atomic or non-atomic); with none active it opens a
one-shot plain connection around this single query. -/
def nax (ctx : ScopeCtx) (q : Query) (st : EngSt) : Except Err QResult × EngSt :=
  match ctx.current with
  | some h => execOnS h q st
  | none =>
    let (h, st1) := openConn st
    let (r, st2) := execOnS h q st1
    (r, closeConn st2 h.id)

/-- The observable engine events of one `atx` call. -/
inductive EngEvent
  | beginTx
  | execQ
  | commitTx
  | rollbackTx
deriving Repr, DecidableEq

/-- Modelled from the spec: executor entry point `atx` (`useOrOpenAtomic`,
section 4.3) — inside an atomic scope the query executes on the ambient
transaction; outside, it opens a new one-shot atomic scope, executes, and
commits on success or rolls back on failure, immediately around this
single query.  The event list records the engine calls made. -/
def atx (ctx : ScopeCtx) (q : Query) (st : EngSt) :
    Except Err QResult × EngSt × List EngEvent :=
  match ctx.current, ctx.kind with
  | some h, .atomic =>
    let (r, st1) := execOnS h q st
    (r, st1, [.execQ])
  | _, _ =>
    let (h, st1) := beginTx st
    match execOnS h q st1 with
    | (.ok r, st2) => (.ok r, commitTx st2 h.id, [.beginTx, .execQ, .commitTx])
    | (.error e, st2) => (.error e, rollbackTx st2 h.id, [.beginTx, .execQ, .rollbackTx])

/-- Modelled from the spec: executor entry point `x` (`useOrOpenEither`,
section 4.3) — an explicitly supplied handle always wins over the ambient
context; with neither present a one-shot plain connection is used; never
fails solely for a missing handle. -/
def x (explicit : Option Handle) (ctx : ScopeCtx) (q : Query) (st : EngSt) :
    Except Err QResult × EngSt :=
  match explicit with
  | some h => execOnS h q st
  | none =>
    match ctx.current with
    | some h => execOnS h q st
    | none =>
      let (h, st1) := openConn st
      let (r, st2) := execOnS h q st1
      (r, closeConn st2 h.id)

/-- Modelled from the spec: executor entry point `tx`
(`useOrOpenAtomicExplicit`, section 4.3) — an explicitly supplied handle
wins, but a plain (non-transactional) explicit handle is rejected with
`scopeError`; with no explicit handle it falls back to the ambient atomic
scope, and finally opens a new one-shot transaction committed or rolled
back around this single query. -/
def tx (explicit : Option Handle) (ctx : ScopeCtx) (q : Query) (st : EngSt) :
    Except Err QResult × EngSt :=
  match explicit with
  | some h =>
    match h.kind with
    | .txn => execOnS h q st
    | .plain => (.error .scopeError, st)
  | none =>
    match ctx.current, ctx.kind with
    | some h, .atomic => execOnS h q st
    | _, _ =>
      let (h, st1) := beginTx st
      match execOnS h q st1 with
      | (.ok r, st2) => (.ok r, commitTx st2 h.id)
      | (.error e, st2) => (.error e, rollbackTx st2 h.id)

/-- Modelled from the spec: how the `@transact` injection adapter
(section 4.4) resolves its injected parameter — an explicitly passed
transactional handle is used as-is, an explicitly passed plain connection
raises an error, and an absent value begins a fresh transaction. -/
def transactResolve (explicit : Option Handle) (st : EngSt) :
    Except Err (Handle × EngSt) :=
  match explicit with
  | some h =>
    match h.kind with
    | .txn => .ok (h, st)
    | .plain => .error .scopeError
  | none =>
    let (h, st1) := beginTx st
    .ok (h, st1)

/-- Modelled from the spec: `ScopeManager.enterNonAtomic` (section 4.2) —
with any active ambient handle the scope is a proxy reusing it (the
returned flag records whether a new connection was opened); otherwise a
new plain connection is opened and installed. -/
def enterNonAtomic (ctx : ScopeCtx) (st : EngSt) :
    Handle × ScopeCtx × EngSt × Bool :=
  match ctx.current with
  | some h => (h, ctx, st, false)
  | none =>
    let (h, st1) := openConn st
    (h, ⟨some h, .nonAtomic⟩, st1, true)

/-- The terminal-action events of the reference-counted `ScopeManager`
(spec section 4.2). -/
inductive ScopeEvent
  | beginTx
  | commitTx
  | rollbackTx
deriving Repr, DecidableEq

def ScopeEvent.isTerminal : ScopeEvent → Bool
  | .commitTx => true
  | .rollbackTx => true
  | .beginTx => false

/-- The reference count of nested atomic entries in one logical
operation; zero means no atomic scope is active. -/
structure MgrSt where
  depth : Nat
deriving Repr, DecidableEq

/-- How the protected body of an atomic scope exited. -/
inductive Outcome
  | normal
  | exceptional
deriving Repr, DecidableEq

/-- Modelled from the spec: `ScopeManager.enterAtomic` (section 4.2) — the
outermost entry begins a transaction; an inner entry only increments the
reference count and emits no engine call. -/
def enterAtomic (s : MgrSt) : MgrSt × List ScopeEvent :=
  if s.depth = 0 then (⟨1⟩, [.beginTx]) else (⟨s.depth + 1⟩, [])

/-- Modelled from the spec: `ScopeManager.exitAtomic` (section 4.2) — the
reference count is decremented and only the exit that returns it to zero
performs the terminal commit (normal outcome) or rollback (exceptional
outcome). -/
def exitAtomic (s : MgrSt) (o : Outcome) : MgrSt × List ScopeEvent :=
  if s.depth = 1 then
    (⟨0⟩, [match o with | .normal => .commitTx | .exceptional => .rollbackTx])
  else
    (⟨s.depth - 1⟩, [])

/-- `n` successive atomic-scope entries. -/
def enterN : Nat → MgrSt → MgrSt × List ScopeEvent
  | 0, s => (s, [])
  | n + 1, s =>
    let (s1, e1) := enterAtomic s
    let (s2, e2) := enterN n s1
    (s2, e1 ++ e2)

/-- `n` successive atomic-scope exits, all with the same outcome. -/
def exitN : Nat → Outcome → MgrSt → MgrSt × List ScopeEvent
  | 0, _, s => (s, [])
  | n + 1, o, s =>
    let (s1, e1) := exitAtomic s o
    let (s2, e2) := exitN n o s1
    (s2, e1 ++ e2)

/-- The engine events of one logical operation that enters `n` nested
atomic scopes and then exits all of them (LIFO), the body finishing with
outcome `o`. -/
def nestedAtomicTrace (n : Nat) (o : Outcome) : List ScopeEvent :=
  let (s1, e1) := enterN n ⟨0⟩
  let (_, e2) := exitN n o s1
  e1 ++ e2

/-- Python truthiness of an `Optional[int]` value: `None` and `0` are
falsy, every other integer is truthy (the `if not author_id` guard). -/
def truthyOptInt : Option Int → Bool
  | none => false
  | some n => n != 0

/-- Python truthiness of an `Optional[str]` value: `None` and the empty
string are falsy. -/
def truthyOptStr : Option String → Bool
  | none => false
  | some s => s != ""

/-- The `CreateBook` request schema of `src/src/schemas.py`: a title, an
optional author id, and an optional author name used when no id is
given. -/
structure CreateBook where
  title : String
  author_id : Option Int
  author_name : Option String
deriving Repr, DecidableEq

/-- Whether a payload takes `create_book`'s author-creating branch:
`if not author_id and payload.author_name` in the Python source. -/
def authorCreating (p : CreateBook) : Bool :=
  (!truthyOptInt p.author_id) && truthyOptStr p.author_name

/-- The body of `create_book` from `src/src/app_2_dependency_injection.py`
(lines 88-110), whose two inserts run through `tr.execute` on the one
injected transaction — here, directly on that transaction's pending view.
`fault` is the outcome of `random.choice([True, False])`: when the
author-creating branch is taken and `fault` holds, the simulated
`ValueError` is raised after the author insert. -/
def create_book_body (payload : CreateBook) (fault : Bool) (db : DB) :
    Except Err (Nat × DB) :=
  if authorCreating payload then
    let (newAid, db1) := db.insertAuthor (payload.author_name.getD "")
    if fault then .error .valueError
    else
      let (bid, db2) := db1.insertBook payload.title (some ((newAid : Int)))
      .ok (bid, db2)
  else
    let (bid, db1) := db.insertBook payload.title payload.author_id
    .ok (bid, db1)

/-- Modelled from the spec: one `create_book` call wrapped in its own
atomic scope (one per request under the injection convention) — the body
runs on the transaction's pending view started from the committed state;
a normal exit commits the view, an escaping exception rolls it back
leaving the committed state untouched (spec section 7). -/
def runAtomicCreateBook (payload : CreateBook) (fault : Bool) (db : DB) :
    Option Nat × DB :=
  match create_book_body payload fault db with
  | .ok (bid, db1) => (some bid, db1)
  | .error _ => (none, db)

/-- A sequence of create-book operations, each in its own atomic scope,
applied to the committed state; returns the number of operations that
reported success together with the final committed state. -/
def runCreateBooks : List (CreateBook × Bool) → DB → Nat × DB
  | [], db => (0, db)
  | (p, f) :: rest, db =>
    let (res, db1) := runAtomicCreateBook p f db
    let (n, db2) := runCreateBooks rest db1
    ((if res.isSome then 1 else 0) + n, db2)

/-- `create_book` from `src/src/app_3_optional_param.py` (lines 95-113):
the optional `tr` parameter is threaded into each of the two `tx` calls;
`fault` is the simulated-failure coin flip. -/
def create_book3 (payload : CreateBook) (fault : Bool) (tr : Option Handle)
    (ctx : ScopeCtx) (st : EngSt) : Except Err Nat × EngSt :=
  if authorCreating payload then
    match tx tr ctx (.insertAuthor (payload.author_name.getD "")) st with
    | (.error e, st1) => (.error e, st1)
    | (.ok (.scalarOpt _), st1) => (.error .engineError, st1)
    | (.ok (.scalarNat newAid), st1) =>
      if fault then (.error .valueError, st1)
      else
        match tx tr ctx (.insertBook payload.title (some ((newAid : Int)))) st1 with
        | (.error e, st2) => (.error e, st2)
        | (.ok (.scalarOpt _), st2) => (.error .engineError, st2)
        | (.ok (.scalarNat bid), st2) => (.ok bid, st2)
  else
    match tx tr ctx (.insertBook payload.title payload.author_id) st with
    | (.error e, st1) => (.error e, st1)
    | (.ok (.scalarOpt _), st1) => (.error .engineError, st1)
    | (.ok (.scalarNat bid), st1) => (.ok bid, st1)

/-- The aggregate statistics returned by the three `get_stats`
handlers. -/
structure Stats where
  bookCount : Nat
  authorCount : Nat
  maxBookId : Option Nat
  maxAuthorId : Option Nat
deriving Repr, DecidableEq

/-- `.scalar_one()` on a result expected to be an integer scalar. -/
def scalarOneNat : Except Err QResult × EngSt → Except Err (Nat × EngSt)
  | (.ok (.scalarNat n), st) => .ok (n, st)
  | (.ok (.scalarOpt _), _) => .error .engineError
  | (.error e, _) => .error e

/-- `.scalar_one()` on a result expected to be a nullable scalar. -/
def scalarOneOpt : Except Err QResult × EngSt → Except Err (Option Nat × EngSt)
  | (.ok (.scalarOpt o), st) => .ok (o, st)
  | (.ok (.scalarNat _), _) => .error .engineError
  | (.error e, _) => .error e

/-- A context with no ambient scope: the state of a direct call made
outside any `atomic()`/`non_atomic()` block. -/
def noCtx : ScopeCtx := ⟨none, .noScope⟩

/-- `get_stats` from `src/src/app_1_hidden_context.py` (lines 134-163)
called directly with no ambient scope: four `nax` queries, in the
source's order (author count, max author id, book count, max book id). -/
def get_stats1 (st : EngSt) : Except Err (Stats × EngSt) := do
  let (ac, st1) ← scalarOneNat (nax noCtx .countAuthors st)
  let (ma, st2) ← scalarOneOpt (nax noCtx .maxAuthorId st1)
  let (bc, st3) ← scalarOneNat (nax noCtx .countBooks st2)
  let (mb, st4) ← scalarOneOpt (nax noCtx .maxBookId st3)
  .ok (⟨bc, ac, mb, ma⟩, st4)

/-- `get_stats` from `src/src/app_2_decorator.py` called directly with no
explicit connection: the `@connect` adapter acquires a fresh plain
connection, the body issues its four queries through `conn.execute` on
it, and the connection is released on exit. -/
def get_stats2 (st : EngSt) : Except Err (Stats × EngSt) := do
  let (conn, st0) := openConn st
  let (ac, st1) ← scalarOneNat (execOnS conn .countAuthors st0)
  let (ma, st2) ← scalarOneOpt (execOnS conn .maxAuthorId st1)
  let (bc, st3) ← scalarOneNat (execOnS conn .countBooks st2)
  let (mb, st4) ← scalarOneOpt (execOnS conn .maxBookId st3)
  .ok (⟨bc, ac, mb, ma⟩, closeConn st4 conn.id)

/-- `get_stats` from `src/src/app_3_optional_param.py` (lines 140-166)
called directly with `conn = None` and no ambient scope: four `x` calls
with an absent explicit handle. -/
def get_stats3 (st : EngSt) : Except Err (Stats × EngSt) := do
  let (ac, st1) ← scalarOneNat (x none noCtx .countAuthors st)
  let (ma, st2) ← scalarOneOpt (x none noCtx .maxAuthorId st1)
  let (bc, st3) ← scalarOneNat (x none noCtx .countBooks st2)
  let (mb, st4) ← scalarOneOpt (x none noCtx .maxBookId st3)
  .ok (⟨bc, ac, mb, ma⟩, st4)

/-! ### Helper lemmas -/

/-- The terminal event an outcome produces. -/
def terminalOf : Outcome → ScopeEvent
  | .normal => .commitTx
  | .exceptional => .rollbackTx

theorem enterN_succ (n : Nat) (s : MgrSt) :
    enterN (n + 1) s
      = ((enterN n (enterAtomic s).1).1,
          (enterAtomic s).2 ++ (enterN n (enterAtomic s).1).2) := rfl

theorem exitN_succ (n : Nat) (o : Outcome) (s : MgrSt) :
    exitN (n + 1) o s
      = ((exitN n o (exitAtomic s o).1).1,
          (exitAtomic s o).2 ++ (exitN n o (exitAtomic s o).1).2) := rfl

theorem enterAtomic_outer : enterAtomic ⟨0⟩ = (⟨1⟩, [.beginTx]) := by
  simp [enterAtomic]

theorem enterAtomic_inner (d : Nat) (hd : d ≠ 0) :
    enterAtomic ⟨d⟩ = (⟨d + 1⟩, []) := by
  simp [enterAtomic, hd]

theorem exitAtomic_last (o : Outcome) : exitAtomic ⟨1⟩ o = (⟨0⟩, [terminalOf o]) := by
  cases o <;> simp [exitAtomic, terminalOf]

theorem exitAtomic_inner (d : Nat) (o : Outcome) (hd : d ≠ 1) :
    exitAtomic ⟨d⟩ o = (⟨d - 1⟩, []) := by
  simp [exitAtomic, hd]

theorem enterN_of_pos (n : Nat) : ∀ d, 1 ≤ d → enterN n ⟨d⟩ = (⟨d + n⟩, []) := by
  induction n with
  | zero => intro d _; simp [enterN]
  | succ n ih =>
    intro d hd
    rw [enterN_succ, enterAtomic_inner d (by omega), ih (d + 1) (by omega)]
    refine Prod.ext ?_ ?_ <;> simp
    omega

theorem enterN_zero_succ (n : Nat) : enterN (n + 1) ⟨0⟩ = (⟨n + 1⟩, [.beginTx]) := by
  rw [enterN_succ, enterAtomic_outer, enterN_of_pos n 1 (by omega)]
  refine Prod.ext ?_ ?_ <;> simp
  omega

theorem exitN_of_depth (n : Nat) (o : Outcome) (hn : 1 ≤ n) :
    exitN n o ⟨n⟩ = (⟨0⟩, [terminalOf o]) := by
  induction n with
  | zero => omega
  | succ m ih =>
    cases m with
    | zero =>
      rw [exitN_succ, exitAtomic_last]
      simp [exitN]
    | succ k =>
      rw [exitN_succ, exitAtomic_inner (k + 1 + 1) o (by omega)]
      have hd : k + 1 + 1 - 1 = k + 1 := by omega
      rw [hd, ih (by omega)]
      simp

theorem nestedTrace_def (n : Nat) (o : Outcome) :
    nestedAtomicTrace n o
      = (enterN n ⟨0⟩).2 ++ (exitN n o (enterN n ⟨0⟩).1).2 := rfl

theorem nestedAtomicTrace_eq (n : Nat) (o : Outcome) (hn : 1 ≤ n) :
    nestedAtomicTrace n o = [.beginTx, terminalOf o] := by
  match n, hn with
  | m + 1, _ =>
    rw [nestedTrace_def, enterN_zero_succ m, exitN_of_depth (m + 1) o (by omega)]
    simp

/-! ### Claims -/

/-- C2: for every sequence of nested `atomic` scope entries within one
logical operation (n nested entries followed by their n LIFO exits,
n ≥ 1), exactly one underlying transaction is opened and exactly one
terminal commit or rollback occurs, regardless of nesting depth; the
inner entries and exits emit no engine call. -/
theorem nested_atomic_single_transaction (n : Nat) (o : Outcome) (hn : 1 ≤ n) :
    (nestedAtomicTrace n o).count ScopeEvent.beginTx = 1 ∧
    (nestedAtomicTrace n o).countP ScopeEvent.isTerminal = 1 := by
  rw [nestedAtomicTrace_eq n o hn]
  cases o <;> exact ⟨by decide, by decide⟩

theorem nested_atomic_single_transaction_witness :
    1 ≤ 3 ∧
    (nestedAtomicTrace 3 Outcome.normal).count ScopeEvent.beginTx = 1 ∧
    (nestedAtomicTrace 3 Outcome.normal).countP ScopeEvent.isTerminal = 1 :=
  ⟨by decide, nested_atomic_single_transaction 3 Outcome.normal (by decide)⟩

/-- C3: on an empty database, `get_stats` called with no explicit handle
and no ambient scope through the ambient-lookup convention (app 1), the
injection convention (app 2), and the optional-parameter convention
(app 3) all succeed and return the identical result: book count 0,
author count 0, max book id null, max author id null. -/
theorem cross_convention_stats_on_empty_db :
    (get_stats1 (EngSt.init DB.empty)).map Prod.fst = .ok ⟨0, 0, none, none⟩ ∧
    (get_stats2 (EngSt.init DB.empty)).map Prod.fst = .ok ⟨0, 0, none, none⟩ ∧
    (get_stats3 (EngSt.init DB.empty)).map Prod.fst = .ok ⟨0, 0, none, none⟩ := by
  refine ⟨rfl, rfl, rfl⟩

/-- C4: every call of the atomic-required entry point `ax`
(`requireAtomic`) made without an active ambient atomic scope (and `ax`
accepts no explicit handle) fails with `scopeError` and leaves the
engine state — hence the database — untouched. -/
theorem ax_outside_atomic_scope_errors (ctx : ScopeCtx) (q : Query) (st : EngSt)
    (hk : ctx.kind ≠ SKind.atomic) :
    ax ctx q st = (.error .scopeError, st) := by
  obtain ⟨cur, k⟩ := ctx
  cases cur <;> cases k <;> simp_all [ax]

theorem ax_outside_atomic_scope_errors_witness :
    noCtx.kind ≠ SKind.atomic ∧
    ax noCtx Query.countAuthors (EngSt.init DB.empty)
      = (.error .scopeError, EngSt.init DB.empty) :=
  ⟨by decide,
    ax_outside_atomic_scope_errors noCtx Query.countAuthors (EngSt.init DB.empty)
      (by decide)⟩

/-- C6: every call of `tx` (`useOrOpenAtomicExplicit`) whose explicitly
supplied handle is a plain non-transactional connection fails with
`scopeError` leaving the engine state untouched, and the `@transact`
injection adapter likewise rejects an explicitly passed plain
connection. -/
theorem tx_rejects_plain_connection (h : Handle) (ctx : ScopeCtx) (q : Query)
    (st : EngSt) (hp : h.kind = HKind.plain) :
    tx (some h) ctx q st = (.error .scopeError, st) ∧
    transactResolve (some h) st = .error .scopeError := by
  obtain ⟨i, k⟩ := h
  cases k <;> simp_all [tx, transactResolve]

theorem tx_rejects_plain_connection_witness :
    Handle.kind ⟨7, .plain⟩ = HKind.plain ∧
    (tx (some ⟨7, .plain⟩) noCtx Query.countAuthors (EngSt.init DB.empty)
        = (.error .scopeError, EngSt.init DB.empty) ∧
      transactResolve (some ⟨7, .plain⟩) (EngSt.init DB.empty)
        = .error .scopeError) :=
  ⟨by decide,
    tx_rejects_plain_connection ⟨7, .plain⟩ noCtx Query.countAuthors
      (EngSt.init DB.empty) (by decide)⟩

/-- C10 counterexample: the payload with `author_id = 0` and the
non-null (but empty) `author_name = ""` refutes the claim as stated —
the guard `if not author_id and payload.author_name` is false because
the empty string is falsy in Python, so no author row is inserted and
the created book keeps the supplied `author_id = 0`. -/
theorem author_id_zero_nonnull_name_refuted :
    (some "" : Option String) ≠ none ∧
    create_book_body ⟨"T", some 0, some ""⟩ false DB.empty
      = .ok (1, ⟨[], [⟨1, "T", some 0⟩], 1, 2⟩) :=
  ⟨by simp, rfl⟩

/-- C10 amended: for every `create_book` payload whose `author_id` is 0
and whose `author_name` is a non-null, non-empty string, the guard
treats 0 as absent: a new author row is inserted and the created book
references the newly inserted author's id, which is nonzero and so
differs from the supplied 0. -/
theorem author_id_zero_treated_as_absent (title name : String) (db : DB)
    (hname : name ≠ "") (hid : 1 ≤ db.nextAuthorId) :
    ∃ db2,
      create_book_body ⟨title, some 0, some name⟩ false db
          = .ok (db.nextBookId, db2) ∧
      db2.authors = db.authors ++ [⟨db.nextAuthorId, name⟩] ∧
      db2.books = db.books ++ [⟨db.nextBookId, title, some ((db.nextAuthorId : Int))⟩] ∧
      (db.nextAuthorId : Int) ≠ 0 := by
  refine ⟨((db.insertAuthor name).2.insertBook title
      (some ((db.nextAuthorId : Int)))).2, ?_, ?_, ?_, ?_⟩
  · simp [create_book_body, authorCreating, truthyOptInt, truthyOptStr, hname,
      DB.insertAuthor, DB.insertBook]
  · simp [DB.insertAuthor, DB.insertBook]
  · simp [DB.insertAuthor, DB.insertBook]
  · omega

theorem author_id_zero_treated_as_absent_witness :
    ("A" : String) ≠ "" ∧ 1 ≤ DB.empty.nextAuthorId ∧
    ∃ db2,
      create_book_body ⟨"T", some 0, some "A"⟩ false DB.empty
          = .ok (DB.empty.nextBookId, db2) ∧
      db2.authors = DB.empty.authors ++ [⟨DB.empty.nextAuthorId, "A"⟩] ∧
      db2.books = DB.empty.books
          ++ [⟨DB.empty.nextBookId, "T", some ((DB.empty.nextAuthorId : Int))⟩] ∧
      (DB.empty.nextAuthorId : Int) ≠ 0 :=
  ⟨by decide, by decide,
    author_id_zero_treated_as_absent "T" "A" DB.empty (by decide) (by decide)⟩

theorem runAtomicCreateBook_fault (p : CreateBook) (db : DB)
    (hp : authorCreating p = true) :
    runAtomicCreateBook p true db = (none, db) := by
  simp [runAtomicCreateBook, create_book_body, hp]

theorem runAtomicCreateBook_counts (p : CreateBook) (f : Bool) (db : DB)
    (hp : authorCreating p = true) :
    ((runAtomicCreateBook p f db).2).authorCount
        = db.authorCount + (if (runAtomicCreateBook p f db).1.isSome then 1 else 0) ∧
    ((runAtomicCreateBook p f db).2).bookCount
        = db.bookCount + (if (runAtomicCreateBook p f db).1.isSome then 1 else 0) := by
  cases f
  · simp [runAtomicCreateBook, create_book_body, hp, DB.insertAuthor, DB.insertBook,
      DB.authorCount, DB.bookCount]
  · simp [runAtomicCreateBook_fault p db hp]

theorem runCreateBooks_cons (p : CreateBook) (f : Bool)
    (rest : List (CreateBook × Bool)) (db : DB) :
    runCreateBooks ((p, f) :: rest) db
      = ((if (runAtomicCreateBook p f db).1.isSome then 1 else 0)
            + (runCreateBooks rest (runAtomicCreateBook p f db).2).1,
          (runCreateBooks rest (runAtomicCreateBook p f db).2).2) := rfl

/-- C1: for every `create_book` call run inside its own atomic scope, a
simulated `ValueError` escaping the body (after the author insert) rolls
the transaction back before the error reaches the caller, leaving the
committed state exactly as before; and across any sequence of
author-creating create-book operations, the committed author and book
counts each grow by exactly the number of operations that reported
success — so both always equal that success count when starting from
equal counts. -/
theorem create_book_atomic_rollback_and_counts :
    (∀ (p : CreateBook) (db : DB), authorCreating p = true →
      runAtomicCreateBook p true db = (none, db)) ∧
    (∀ (ops : List (CreateBook × Bool)) (db : DB),
      (∀ pf ∈ ops, authorCreating pf.1 = true) →
      ((runCreateBooks ops db).2).authorCount
          = db.authorCount + (runCreateBooks ops db).1 ∧
      ((runCreateBooks ops db).2).bookCount
          = db.bookCount + (runCreateBooks ops db).1) := by
  refine ⟨fun p db hp => runAtomicCreateBook_fault p db hp, ?_⟩
  intro ops
  induction ops with
  | nil => intro db _; simp [runCreateBooks]
  | cons pf rest ih =>
    intro db hall
    obtain ⟨p, f⟩ := pf
    have hp : authorCreating p = true := hall (p, f) (by simp)
    have hrest : ∀ pf ∈ rest, authorCreating pf.1 = true :=
      fun pf hm => hall pf (List.mem_cons_of_mem _ hm)
    have hstep := runAtomicCreateBook_counts p f db hp
    have hih := ih (runAtomicCreateBook p f db).2 hrest
    rw [runCreateBooks_cons]
    constructor <;> simp only [] <;> omega

theorem create_book_atomic_rollback_and_counts_witness :
    (∀ pf ∈ [((⟨"B0", none, some "A0"⟩ : CreateBook), false),
             ((⟨"B1", none, some "A1"⟩ : CreateBook), true),
             ((⟨"B2", none, some "A2"⟩ : CreateBook), false)],
      authorCreating pf.1 = true) ∧
    ((runCreateBooks [((⟨"B0", none, some "A0"⟩ : CreateBook), false),
             ((⟨"B1", none, some "A1"⟩ : CreateBook), true),
             ((⟨"B2", none, some "A2"⟩ : CreateBook), false)] DB.empty).2).authorCount
        = DB.empty.authorCount
            + (runCreateBooks [((⟨"B0", none, some "A0"⟩ : CreateBook), false),
             ((⟨"B1", none, some "A1"⟩ : CreateBook), true),
             ((⟨"B2", none, some "A2"⟩ : CreateBook), false)] DB.empty).1 ∧
    ((runCreateBooks [((⟨"B0", none, some "A0"⟩ : CreateBook), false),
             ((⟨"B1", none, some "A1"⟩ : CreateBook), true),
             ((⟨"B2", none, some "A2"⟩ : CreateBook), false)] DB.empty).2).bookCount
        = DB.empty.bookCount
            + (runCreateBooks [((⟨"B0", none, some "A0"⟩ : CreateBook), false),
             ((⟨"B1", none, some "A1"⟩ : CreateBook), true),
             ((⟨"B2", none, some "A2"⟩ : CreateBook), false)] DB.empty).1 :=
  ⟨by decide,
    create_book_atomic_rollback_and_counts.2
      [((⟨"B0", none, some "A0"⟩ : CreateBook), false),
       ((⟨"B1", none, some "A1"⟩ : CreateBook), true),
       ((⟨"B2", none, some "A2"⟩ : CreateBook), false)] DB.empty (by decide)⟩

/-- C5: a non-atomic query (`nax`) issued while an atomic scope is active
reuses the atomic scope's transaction handle — `enterNonAtomic` returns a
proxy over the ambient handle without opening a connection, and the `nax`
query executes on the atomic transaction's pending view, so it observes
writes made earlier in the same still-uncommitted atomic scope; no second
connection is opened (open-connection set, handle counter and committed
state are all untouched). -/
theorem nax_inside_atomic_reuses_transaction (st : EngSt) (h : Handle) (v : DB)
    (hk : h.kind = HKind.txn) (hv : lookupTx st h.id = some v) :
    enterNonAtomic ⟨some h, .atomic⟩ st = (h, ⟨some h, .atomic⟩, st, false) ∧
    (nax ⟨some h, .atomic⟩ .countAuthors st).1 = .ok (.scalarNat v.authorCount) ∧
    (nax ⟨some h, .atomic⟩ .countAuthors st).2.conns = st.conns ∧
    (nax ⟨some h, .atomic⟩ .countAuthors st).2.nextHandle = st.nextHandle ∧
    (nax ⟨some h, .atomic⟩ .countAuthors st).2.committed = st.committed := by
  have hx : nax ⟨some h, .atomic⟩ .countAuthors st
      = (.ok (.scalarNat v.authorCount), setTx st h.id v) := by
    simp [nax, execOnS, hk, hv, execQuery]
  refine ⟨rfl, ?_, ?_, ?_, ?_⟩ <;> rw [hx] <;> rfl

theorem nax_inside_atomic_reuses_transaction_witness :
    Handle.kind ⟨1, .txn⟩ = HKind.txn ∧
    lookupTx ⟨DB.empty, [(1, (DB.empty.insertAuthor "A").2)], [], 2⟩
        (Handle.id ⟨1, .txn⟩) = some (DB.empty.insertAuthor "A").2 ∧
    (nax ⟨some ⟨1, .txn⟩, .atomic⟩ .countAuthors
        ⟨DB.empty, [(1, (DB.empty.insertAuthor "A").2)], [], 2⟩).1
      = .ok (.scalarNat ((DB.empty.insertAuthor "A").2).authorCount) :=
  ⟨by decide, by decide,
    (nax_inside_atomic_reuses_transaction
      ⟨DB.empty, [(1, (DB.empty.insertAuthor "A").2)], [], 2⟩
      ⟨1, .txn⟩ (DB.empty.insertAuthor "A").2 (by decide) (by decide)).2.1⟩

/-- C7: for `x` (`useOrOpenEither`) and `tx` (`useOrOpenAtomicExplicit`),
an explicitly supplied transactional handle wins over an active ambient
atomic scope: the query executes on the explicit handle's pending view,
and when the explicit and ambient transaction states differ the result
reflects the explicit one, not the ambient one. -/
theorem explicit_handle_beats_ambient (st : EngSt) (hE hA : Handle) (vE vA : DB)
    (hkE : hE.kind = HKind.txn)
    (hvE : lookupTx st hE.id = some vE)
    (_hvA : lookupTx st hA.id = some vA) :
    (x (some hE) ⟨some hA, .atomic⟩ .countAuthors st).1
        = .ok (.scalarNat vE.authorCount) ∧
    (tx (some hE) ⟨some hA, .atomic⟩ .countAuthors st).1
        = .ok (.scalarNat vE.authorCount) ∧
    (vE.authorCount ≠ vA.authorCount →
      (x (some hE) ⟨some hA, .atomic⟩ .countAuthors st).1
          ≠ .ok (.scalarNat vA.authorCount)) := by
  have hx : (x (some hE) ⟨some hA, .atomic⟩ .countAuthors st).1
      = .ok (.scalarNat vE.authorCount) := by
    simp [x, execOnS, hkE, hvE, execQuery]
  have ht : (tx (some hE) ⟨some hA, .atomic⟩ .countAuthors st).1
      = .ok (.scalarNat vE.authorCount) := by
    simp [tx, execOnS, hkE, hvE, execQuery]
  refine ⟨hx, ht, ?_⟩
  intro hne
  rw [hx]
  intro hc
  exact hne (by injection hc with h1; injection h1)

theorem explicit_handle_beats_ambient_witness :
    Handle.kind ⟨1, .txn⟩ = HKind.txn ∧
    lookupTx ⟨DB.empty, [(1, (DB.empty.insertAuthor "A").2), (2, DB.empty)], [], 3⟩
        (Handle.id ⟨1, .txn⟩) = some (DB.empty.insertAuthor "A").2 ∧
    lookupTx ⟨DB.empty, [(1, (DB.empty.insertAuthor "A").2), (2, DB.empty)], [], 3⟩
        (Handle.id ⟨2, .txn⟩) = some DB.empty ∧
    (x (some ⟨1, .txn⟩) ⟨some ⟨2, .txn⟩, .atomic⟩ .countAuthors
        ⟨DB.empty, [(1, (DB.empty.insertAuthor "A").2), (2, DB.empty)], [], 3⟩).1
      = .ok (.scalarNat ((DB.empty.insertAuthor "A").2).authorCount) :=
  ⟨by decide, by decide, by decide,
    (explicit_handle_beats_ambient
      ⟨DB.empty, [(1, (DB.empty.insertAuthor "A").2), (2, DB.empty)], [], 3⟩
      ⟨1, .txn⟩ ⟨2, .txn⟩ (DB.empty.insertAuthor "A").2 DB.empty
      (by decide) (by decide) (by decide)).1⟩

theorem execOnS_txn_committed (hid : Nat) (q : Query) (st : EngSt) :
    ((execOnS ⟨hid, HKind.txn⟩ q st).2).committed = st.committed := by
  simp only [execOnS]
  cases hl : lookupTx st hid with
  | none => rfl
  | some v =>
    cases hq : execQuery q v with
    | error e => simp [hq]
    | ok rv => simp [hq, setTx]

/-- C8: `atx` (`useOrOpenAtomic`) called outside any scope opens a
one-shot atomic scope around the single query — begin, execute, then an
immediate commit on success (the committed state becomes the query's
result) or an immediate rollback on failure (the committed state is
untouched); called inside an atomic scope, the query runs on the ambient
transaction: the only engine event is the execution itself, no new
transaction starts, and the committed state is untouched. -/
theorem atx_one_shot_outside_reuse_inside :
    (∀ (ctx : ScopeCtx) (q : Query) (st : EngSt) (r : QResult) (db1 : DB),
      ctx.current = none → st.openTx = [] →
      execQuery q st.committed = .ok (r, db1) →
      atx ctx q st
        = (.ok r, ⟨db1, [], st.conns, st.nextHandle + 1⟩,
            [.beginTx, .execQ, .commitTx])) ∧
    (∀ (ctx : ScopeCtx) (st : EngSt),
      ctx.current = none → st.openTx = [] →
      atx ctx .failing st
        = (.error .engineError, ⟨st.committed, [], st.conns, st.nextHandle + 1⟩,
            [.beginTx, .execQ, .rollbackTx])) ∧
    (∀ (hid : Nat) (q : Query) (st : EngSt),
      ((atx ⟨some ⟨hid, HKind.txn⟩, .atomic⟩ q st).2.1).committed = st.committed ∧
      (atx ⟨some ⟨hid, HKind.txn⟩, .atomic⟩ q st).2.2 = [.execQ]) := by
  refine ⟨?_, ?_, ?_⟩
  · intro ctx q st r db1 hc hopen hq
    obtain ⟨cur, k⟩ := ctx
    simp only at hc
    subst hc
    obtain ⟨cdb, otx, cns, nh⟩ := st
    simp only at hopen hq
    subst hopen
    cases k <;>
      simp [atx, beginTx, execOnS, lookupTx, commitTx, setTx, hq, List.lookup]
  · intro ctx st hc hopen
    obtain ⟨cur, k⟩ := ctx
    simp only at hc
    subst hc
    obtain ⟨cdb, otx, cns, nh⟩ := st
    simp only at hopen
    subst hopen
    cases k <;>
      simp [atx, beginTx, execOnS, lookupTx, rollbackTx, execQuery, List.lookup]
  · intro hid q st
    exact ⟨execOnS_txn_committed hid q st, rfl⟩

theorem atx_one_shot_outside_reuse_inside_witness :
    noCtx.current = none ∧
    (EngSt.init DB.empty).openTx = [] ∧
    execQuery .countAuthors (EngSt.init DB.empty).committed
      = .ok (.scalarNat 0, DB.empty) ∧
    atx noCtx .countAuthors (EngSt.init DB.empty)
      = (.ok (.scalarNat 0),
          ⟨DB.empty, [], (EngSt.init DB.empty).conns,
            (EngSt.init DB.empty).nextHandle + 1⟩,
          [.beginTx, .execQ, .commitTx]) :=
  ⟨by decide, by decide, rfl,
    atx_one_shot_outside_reuse_inside.1 noCtx .countAuthors (EngSt.init DB.empty)
      (.scalarNat 0) DB.empty (by decide) (by decide) rfl⟩

/-- C9: `create_book` of the optional-parameter app, called directly with
`tr = None` and no ambient scope, runs each insert through `tx(None, …)`
in its own separately committed one-shot transaction; so when the
simulated failure fires between the author insert and the book insert,
the already-committed author row persists (author count up by one) while
no book row is created — the two-step write is not atomic under this
calling pattern. -/
theorem create_book3_none_tr_partially_commits (payload : CreateBook) (db : DB)
    (hp : authorCreating payload = true) :
    create_book3 payload true none noCtx (EngSt.init db)
      = (.error .valueError,
          ⟨(db.insertAuthor (payload.author_name.getD "")).2, [], [], 2⟩) ∧
    ((db.insertAuthor (payload.author_name.getD "")).2).authorCount
        = db.authorCount + 1 ∧
    ((db.insertAuthor (payload.author_name.getD "")).2).bookCount = db.bookCount := by
  refine ⟨?_, ?_, ?_⟩
  · simp [create_book3, hp, tx, noCtx, EngSt.init, beginTx, execOnS, lookupTx,
      setTx, commitTx, execQuery, List.lookup]
  · simp [DB.insertAuthor, DB.authorCount]
  · simp [DB.insertAuthor, DB.bookCount]

theorem create_book3_none_tr_partially_commits_witness :
    authorCreating ⟨"B", none, some "A"⟩ = true ∧
    create_book3 ⟨"B", none, some "A"⟩ true none noCtx (EngSt.init DB.empty)
      = (.error .valueError,
          ⟨(DB.empty.insertAuthor (((⟨"B", none, some "A"⟩ : CreateBook)).author_name.getD "")).2,
            [], [], 2⟩) :=
  ⟨by decide,
    (create_book3_none_tr_partially_commits ⟨"B", none, some "A"⟩ DB.empty
      (by decide)).1⟩

end FancyCore
